import Mathlib

/-!
Verification of the EntoMLgist label-enrichment pipeline.

Shallow embedding of the core pipeline of the repository:
  * `name_normalization.py` — deterministic insect-name normalization
    (`normalize_insect_name` and its helpers);
  * `gbif_enrichment.py` — taxonomy resolution against GBIF
    (`query_gbif_taxonomy` response parsing, `enrich_taxonomy_from_gbif`
    batch driver) and the image–taxonomy linker
    (`link_images_to_taxonomy`, confidence fusion, link upsert).

Numeric confidences are modelled as exact rationals (`ℚ`); persistent
stores (the SQL tables keyed by primary key) are modelled as association
lists with an upsert operation; the external GBIF call is modelled as an
oracle parameter.  The embedding follows the Python source line by line;
Python-specific behaviours (truthiness of `or`, `str.strip` stripping
both ends, `str.replace` replacing every occurrence) are embedded
faithfully, not idealized.
-/

namespace EntoMLgist

/-! ## Python string primitives

Character-level helpers mirroring the Python `str` methods used by
`name_normalization.py`.  Strings are handled as `List Char`.
-/

/-- Python whitespace characters (the ASCII part of `\s` / `str.split()` /
`str.strip()`): space, tab, newline, carriage return, vertical tab, form
feed. -/
def isPyWs (c : Char) : Bool :=
  c = ' ' || c = '\t' || c = '\n' || c = '\r' || c = Char.ofNat 11 || c = Char.ofNat 12

/-- Drop characters satisfying `p` from both ends (Python `str.strip`). -/
def stripChars (p : Char → Bool) (s : List Char) : List Char :=
  ((s.dropWhile p).reverse.dropWhile p).reverse

/-- Python `str.lower()` (ASCII; the repository's rule tables and inputs
are ASCII). -/
def pyLower (s : List Char) : List Char :=
  s.map Char.toLower

/-- Python `str.split()` with no argument: split on runs of whitespace,
discarding empty pieces.  `cur` is the current word accumulated in
reverse. -/
def splitWsAux : List Char → List Char → List (List Char)
  | cur, [] => if cur = [] then [] else [cur.reverse]
  | cur, c :: cs =>
      if isPyWs c then
        if cur = [] then splitWsAux [] cs else cur.reverse :: splitWsAux [] cs
      else splitWsAux (c :: cur) cs

def splitWs (s : List Char) : List (List Char) :=
  splitWsAux [] s

/-- Python `' '.join(words)`. -/
def joinSpace (ws : List (List Char)) : List Char :=
  List.intercalate [' '] ws

/-- Python `str.replace(old, new)`: replace every non-overlapping
occurrence, scanning left to right.  `fuel` only forces structural
termination: every step consumes at least one input character when
`old` is non-empty (every pattern in the source tables is), so
`fuel = input length` never runs out. -/
def replaceAllAux (old new : List Char) : Nat → List Char → List Char
  | 0, s => s
  | _ + 1, [] => []
  | fuel + 1, c :: cs =>
      if old.isPrefixOf (c :: cs) then
        new ++ replaceAllAux old new fuel ((c :: cs).drop old.length)
      else
        c :: replaceAllAux old new fuel cs

def replaceAll (old new s : List Char) : List Char :=
  replaceAllAux old new s.length s

/-! ## `normalize_spacing` -/

/-- `re.sub(r'[-\s]+', ' ', text)`: collapse every run of hyphens and
whitespace to a single space.  The flag records whether the previous
character belonged to such a run (so the run's single space is already
emitted). -/
def collapseRunsAux : Bool → List Char → List Char
  | _, [] => []
  | inRun, c :: cs =>
      if isPyWs c || c = '-' then
        if inRun then collapseRunsAux true cs
        else ' ' :: collapseRunsAux true cs
      else c :: collapseRunsAux false cs

def collapseRuns (s : List Char) : List Char :=
  collapseRunsAux false s

/-- `re.sub(r'\s*-\s*', '-', text)` as a one-pass scanner.
State `some pend`: ordinary scanning, `pend` holding whitespace that is
emitted verbatim unless it turns out to be the `\s*` prefix of a match
(i.e. it is followed by a hyphen).  State `none`: just behind a replaced
hyphen, whose greedy trailing `\s*` consumes all following whitespace; a
hyphen reached through it starts a new match with an empty `\s*`
prefix. -/
def subHyphenAux : Option (List Char) → List Char → List Char
  | some pend, [] => pend
  | none, [] => []
  | some pend, c :: cs =>
      if isPyWs c then subHyphenAux (some (pend ++ [c])) cs
      else if c = '-' then '-' :: subHyphenAux none cs
      else pend ++ c :: subHyphenAux (some []) cs
  | none, c :: cs =>
      if isPyWs c then subHyphenAux none cs
      else if c = '-' then '-' :: subHyphenAux none cs
      else c :: subHyphenAux (some []) cs

def subHyphen (s : List Char) : List Char :=
  subHyphenAux (some []) s

/-- `normalize_spacing` from `name_normalization.py`:
collapse runs of spaces/hyphens to a single space, remove spaces around
remaining hyphens, then strip. -/
def normalize_spacing (s : List Char) : List Char :=
  stripChars isPyWs (subHyphen (collapseRuns s))

/-! ## Rule tables (`name_normalization.py`) -/

/-- `INVALID_NAMES`: generic or noise tokens rejected outright. -/
def INVALID_NAMES : List String :=
  ["bug", "bugs", "it", "they", "he", "op", "snot", "mb", "mfs",
   "boots", "buddies shit", "brocoli", "peppermint", "monsteras",
   "hollow knight", "metal mantis", "guten tag", "thasnk", "blindsnake",
   "babosas chiquitas", "squathoppers", "camterpinlr", "beefy thighs",
   "fuzzy butt bugs", "little bugs", "bug bits", "mystery bug",
   "itsacarpetbeetle", "louse-y", "deaths head", "miracle bug"]

/-- `WORD_SYNONYMS`: word-level synonym replacements, in source order. -/
def WORD_SYNONYMS : List (String × String) :=
  [("roach", "cockroach"),
   ("bedbug", "bed bug"),
   ("stinkbug", "stink bug"),
   ("roly-poly", "pill bug"),
   ("rolypoly", "pill bug"),
   ("psocid", "booklouse"),
   ("cocker", "cockroach")]

/-- `PHRASE_REPLACEMENTS`: multi-word phrase replacements, in source
(insertion) order. -/
def PHRASE_REPLACEMENTS : List (String × String) :=
  [("lady beetle", "ladybug"),
   ("book lice", "booklouse"),
   ("book louse", "booklouse"),
   ("preying mantis", "praying mantis"),
   ("daddy long leg", "daddy long legs")]

/-- `IRREGULAR_PLURALS`. -/
def IRREGULAR_PLURALS : List (String × String) :=
  [("lice", "louse"), ("flies", "fly")]

/-! ## `singularize`

`PLURAL_PATTERNS` is an ordered list of anchored suffix-rewrite regexes;
each is embedded as a function on the reversed word (all patterns are
`$`-anchored, so a match is a suffix match and `re.sub` rewrites at most
one occurrence).  Each pattern strictly shortens the word, so
"`re.sub` changed the word" coincides with "the pattern matched".
-/

def isVowel (c : Char) : Bool :=
  c = 'a' || c = 'e' || c = 'i' || c = 'o' || c = 'u'

/-- `(r'ches$', 'ch')` on the reversed word. -/
def pluralPat1 : List Char → Option (List Char)
  | 's' :: 'e' :: 'h' :: 'c' :: rest => some ('h' :: 'c' :: rest)
  | _ => none

/-- `(r'([^aeiou])ies$', r'\1y')` on the reversed word. -/
def pluralPat2 : List Char → Option (List Char)
  | 's' :: 'e' :: 'i' :: x :: rest =>
      if isVowel x then none else some ('y' :: x :: rest)
  | _ => none

/-- `(r'ves$', 'f')` on the reversed word. -/
def pluralPat3 : List Char → Option (List Char)
  | 's' :: 'e' :: 'v' :: rest => some ('f' :: rest)
  | _ => none

/-- `(r'([sxz]|ch|sh)es$', r'\1')` on the reversed word: the alternation
tries the single characters `s`, `x`, `z` first, then the digraphs `ch`
and `sh`; the replacement restores the group, so the suffix `es` is
dropped. -/
def pluralPat4 : List Char → Option (List Char)
  | 's' :: 'e' :: x :: rest =>
      if x = 's' || x = 'x' || x = 'z' then some (x :: rest)
      else
        match x, rest with
        | 'h', y :: rest2 =>
            if y = 'c' || y = 's' then some ('h' :: y :: rest2) else none
        | _, _ => none
  | _ => none

/-- `(r'([^s])s$', r'\1')` on the reversed word. -/
def pluralPat5 : List Char → Option (List Char)
  | 's' :: x :: rest => if x = 's' then none else some (x :: rest)
  | _ => none

/-- `singularize` from `name_normalization.py`: irregular-plural table
first (exact match), else the first plural pattern that rewrites the
word; unchanged if none applies. -/
def singularize (w : List Char) : List Char :=
  match List.lookup (String.mk w) IRREGULAR_PLURALS with
  | some v => v.data
  | none =>
      let r := w.reverse
      match (((pluralPat1 r).orElse fun _ => pluralPat2 r).orElse
              fun _ => (pluralPat3 r).orElse fun _ => pluralPat4 r).orElse
              fun _ => pluralPat5 r with
      | some r2 => r2.reverse
      | none => w

/-! ## `replace_word_synonyms` -/

/-- Characters stripped from each word before the synonym lookup
(`word.strip('.,;:!?')`; Python strips from both ends). -/
def isWordPunct (c : Char) : Bool :=
  c = '.' || c = ',' || c = ';' || c = ':' || c = '!' || c = '?'

/-- Per-word body of the loop in `replace_word_synonyms`: strip
punctuation for the lookup only; emit the synonym if the cleaned word is
a key, else the original word. -/
def replaceWordSynonymsWord (w : List Char) : List Char :=
  let clean := stripChars isWordPunct w
  match List.lookup (String.mk clean) WORD_SYNONYMS with
  | some v => v.data
  | none => w

/-- `replace_word_synonyms` from `name_normalization.py`. -/
def replace_word_synonyms (s : List Char) : List Char :=
  joinSpace ((splitWs s).map replaceWordSynonymsWord)

/-! ## `normalize_insect_name` -/

/-- One `normalized.replace(phrase, replacement)` step. -/
def applyPhrase (s : List Char) (pr : String × String) : List Char :=
  replaceAll pr.1.data pr.2.data s

def applyPhrases (s : List Char) : List Char :=
  PHRASE_REPLACEMENTS.foldl applyPhrase s

/-- `normalize_insect_name` from `name_normalization.py`.  The input is
typed, so the `isinstance` guard reduces to the emptiness test of
`if not name`. -/
def normalize_insect_name (name : String) : Option String :=
  if name = "" then none
  else
    let normalized := normalize_spacing (pyLower (stripChars isPyWs name.data))
    if String.mk normalized ∈ INVALID_NAMES then none
    else
      let n2 := applyPhrases normalized
      let n3 := replace_word_synonyms n2
      let n4 := joinSpace ((splitWs n3).map singularize)
      let n5 := normalize_spacing n4
      if (String.mk n5).length ≤ 2 ∨ String.mk n5 ∈ INVALID_NAMES then none
      else some (String.mk n5)

end EntoMLgist

namespace EntoMLgist

/-! ## Data model (`models/database.py`)

Numeric confidences (`float` / `int` columns) are modelled as exact
rationals; nullable columns as `Option`.
-/

/-- `Comment` (the fields the enrichment pipeline reads). -/
structure Comment where
  comment_id : String
  parent_post_id : String
  body : String
  upvotes : Int
  extracted_name : Option String
  extracted_name_confidence : Option ℚ
deriving DecidableEq, Repr

/-- `ImageUrl` (the fields the linker reads). -/
structure ImageUrl where
  image_id : String
  parent_post_id : String
  url : String
deriving DecidableEq, Repr

/-- `TaxonomicName`: one row per normalized common name. -/
structure TaxonomicName where
  common_name : String
  gbif_usage_key : Option Int := none
  gbif_accepted_key : Option Int := none
  gbif_taxonomic_status : Option String := none
  gbif_match_type : Option String := none
  gbif_confidence : Option ℚ := none
  scientific_name : Option String := none
  canonical_name : Option String := none
  kingdom : Option String := none
  phylum : Option String := none
  class_name : Option String := none
  order : Option String := none
  family : Option String := none
  genus : Option String := none
  species : Option String := none
  rank : Option String := none
  vernacular_names : Option String := none
  lookup_timestamp : Option Int := none
  lookup_success : Bool := false
  lookup_error : Option String := none
  is_insect : Option Bool := none
  num_occurrences : Option Int := none
deriving DecidableEq, Repr

/-- `ImageTaxonomyLink`: composite key (`image_id`, `common_name`). -/
structure ImageTaxonomyLink where
  image_id : String
  common_name : String
  comment_id : String
  extraction_confidence : Option ℚ := none
  gbif_confidence : Option ℚ := none
  label_quality_score : Option ℚ := none
  comment_upvotes : Int := 0
  is_top_identification : Bool := false
deriving DecidableEq, Repr

/-! ## Keyed stores

A SQL table with a primary key is modelled as an association list; a
`session.get` is `List.lookup`; an in-place mutation of a fetched row or
a `session.add` of a new row is `upsertAL`.
-/

/-- Insert-or-replace at key `k` (first occurrence replaced; a table has
unique keys, so at most one occurrence exists). -/
def upsertAL {κ α : Type} [DecidableEq κ] : List (κ × α) → κ → α → List (κ × α)
  | [], k, v => [(k, v)]
  | (k', v') :: rest, k, v =>
      if k' = k then (k, v) :: rest else (k', v') :: upsertAL rest k v

/-! ## Taxonomy enrichment (`enrich_taxonomy_from_gbif`)

`query_gbif_taxonomy` is an external call; its three possible outcomes
are modelled as an oracle value:
  * `success d` — the function builds and returns the result dict of
    lines 51–126 (with `lookup_success=True`);
  * `failure err ts` — an exception was caught (lines 128–134) and the
    function returns `{'lookup_success': False, 'lookup_error': str(e),
    'lookup_timestamp': ts}`;
  * `nomatch` — GBIF returned no match and the function returns `None`
    (lines 33–35).
-/

/-- The result dict built by a successful `query_gbif_taxonomy` call.
`vernacular_names` / `num_occurrences` are `some` exactly when the
corresponding key was added to the dict (the secondary best-effort
calls succeeded). -/
structure GbifData where
  gbif_usage_key : Option Int := none
  gbif_accepted_key : Option Int := none
  gbif_taxonomic_status : Option String := none
  gbif_match_type : Option String := none
  gbif_confidence : Option ℚ := none
  scientific_name : Option String := none
  canonical_name : Option String := none
  kingdom : Option String := none
  phylum : Option String := none
  class_name : Option String := none
  order : Option String := none
  family : Option String := none
  genus : Option String := none
  species : Option String := none
  rank : Option String := none
  is_insect : Bool := false
  lookup_timestamp : Int := 0
  vernacular_names : Option String := none
  num_occurrences : Option Int := none
deriving DecidableEq, Repr

inductive QueryResult where
  | success (d : GbifData)
  | failure (err : String) (ts : Int)
  | nomatch
deriving DecidableEq, Repr

/-- `for key, value in taxonomy_data.items(): setattr(existing, key, value)`
for a success dict: every key present in the dict overwrites the row
field; keys absent from the dict (`lookup_error`, and the two optional
secondary fields when the secondary calls failed) leave the stored value
untouched. -/
def applyGbifData (t : TaxonomicName) (d : GbifData) : TaxonomicName :=
  { t with
    gbif_usage_key := d.gbif_usage_key
    gbif_accepted_key := d.gbif_accepted_key
    gbif_taxonomic_status := d.gbif_taxonomic_status
    gbif_match_type := d.gbif_match_type
    gbif_confidence := d.gbif_confidence
    scientific_name := d.scientific_name
    canonical_name := d.canonical_name
    kingdom := d.kingdom
    phylum := d.phylum
    class_name := d.class_name
    order := d.order
    family := d.family
    genus := d.genus
    species := d.species
    rank := d.rank
    lookup_success := true
    lookup_timestamp := some d.lookup_timestamp
    is_insect := some d.is_insect
    vernacular_names := match d.vernacular_names with
      | some v => some v
      | none => t.vernacular_names
    num_occurrences := match d.num_occurrences with
      | some n => some n
      | none => t.num_occurrences }

/-- A fresh `TaxonomicName(common_name=...)` row: column defaults. -/
def defaultTaxonomicName (name : String) : TaxonomicName :=
  { common_name := name }

/-- Body of the per-name loop of `enrich_taxonomy_from_gbif`
(lines 160–214).  NOTE: the source's skip of records with
`lookup_success == True` (lines 164–168) is commented out there
("temporary bypass to recheck all names"), so this loop queries the
oracle for every name unconditionally; `now` is the timestamp taken at
lines 204/210 when the lookup returned `None`. -/
def enrichStep (oracle : String → QueryResult) (now : Int)
    (store : List (String × TaxonomicName)) (name : String) :
    List (String × TaxonomicName) :=
  let existing := List.lookup name store
  match oracle name with
  | .success d =>
      match existing with
      | some ex => upsertAL store name (applyGbifData ex d)
      | none => upsertAL store name (applyGbifData (defaultTaxonomicName name) d)
  | .failure err ts =>
      match existing with
      | some ex =>
          upsertAL store name
            { ex with
                lookup_success := false,
                lookup_error := some err,
                lookup_timestamp := some ts }
      | none =>
          upsertAL store name
            { defaultTaxonomicName name with
                lookup_success := false,
                lookup_error := some err,
                lookup_timestamp := some ts }
  | .nomatch =>
      match existing with
      | some ex =>
          upsertAL store name
            { ex with
                lookup_success := false,
                lookup_timestamp := some now }
      | none =>
          upsertAL store name
            { defaultTaxonomicName name with
                lookup_success := false,
                lookup_timestamp := some now }

/-- The whole resolver pass over the distinct extracted names. -/
def enrichAll (oracle : String → QueryResult) (now : Int)
    (store : List (String × TaxonomicName)) (names : List String) :
    List (String × TaxonomicName) :=
  names.foldl (enrichStep oracle now) store

end EntoMLgist

namespace EntoMLgist

/-! ## Confidence fusion and linking (`link_images_to_taxonomy`) -/

/-- The label-quality computation of lines 336–347: `e` is the GLiNER
extraction confidence (0–1), `g` the GBIF match confidence (0–100); the
source tests each for `is not None`. -/
def fuseQuality (e g : Option ℚ) : Option ℚ :=
  match e, g with
  | some a, some b => some (a * (b / 100))
  | some a, none => some a
  | none, some b => some (b / 100)
  | none, none => none

/-- Lines 352–363: field-by-field comparison of the stored link against
the freshly computed values, updating only fields that differ and
tracking whether any update occurred. -/
def updateExistingLink (L : ImageTaxonomyLink) (e g q : Option ℚ) :
    ImageTaxonomyLink × Bool :=
  let p1 := if L.extraction_confidence ≠ e then
              ({ L with extraction_confidence := e }, true)
            else (L, false)
  let p2 := if p1.1.gbif_confidence ≠ g then
              ({ p1.1 with gbif_confidence := g }, true)
            else (p1.1, false)
  let p3 := if p2.1.label_quality_score ≠ q then
              ({ p2.1 with label_quality_score := q }, true)
            else (p2.1, false)
  (p3.1, p1.2 || p2.2 || p3.2)

/-- Mutable state of the linking loop: the `image_taxonomy_links` table
keyed by (`image_id`, `common_name`), the three counters, and the
warning log (pairs of extracted name and comment id, the data of the
`"No taxonomy found for '...' in comment ..."` message). -/
structure LinkState where
  links : List ((String × String) × ImageTaxonomyLink)
  newLinks : Nat := 0
  updatedLinks : Nat := 0
  skippedLinks : Nat := 0
  warnings : List (String × String) := []
deriving DecidableEq, Repr

/-- Body of the per-pair loop of `link_images_to_taxonomy`
(lines 325–384).  The driving query joins comments to images of the same
post and filters `extracted_name IS NOT NULL`, so pairs reaching the
loop carry a name; a `none` name is mapped to the identity for
totality. -/
def linkStep (taxStore : List (String × TaxonomicName))
    (s : LinkState) (pair : Comment × ImageUrl) : LinkState :=
  let comment := pair.1
  let image := pair.2
  match comment.extracted_name with
  | none => s
  | some cname =>
      match List.lookup cname taxStore with
      | none =>
          { s with
              skippedLinks := s.skippedLinks + 1,
              warnings := s.warnings ++ [(cname, comment.comment_id)] }
      | some taxonomy =>
          let labelQuality :=
            fuseQuality comment.extracted_name_confidence taxonomy.gbif_confidence
          match List.lookup (image.image_id, cname) s.links with
          | some existingLink =>
              let upd := updateExistingLink existingLink
                comment.extracted_name_confidence taxonomy.gbif_confidence
                labelQuality
              { s with
                  links := upsertAL s.links (image.image_id, cname) upd.1,
                  updatedLinks :=
                    if upd.2 then s.updatedLinks + 1 else s.updatedLinks,
                  skippedLinks :=
                    if upd.2 then s.skippedLinks else s.skippedLinks + 1 }
          | none =>
              let L : ImageTaxonomyLink :=
                { image_id := image.image_id,
                  common_name := cname,
                  comment_id := comment.comment_id,
                  extraction_confidence := comment.extracted_name_confidence,
                  gbif_confidence := taxonomy.gbif_confidence,
                  label_quality_score := labelQuality,
                  comment_upvotes := comment.upvotes,
                  is_top_identification := false }
              { s with
                  links := upsertAL s.links (image.image_id, cname) L,
                  newLinks := s.newLinks + 1 }

/-- The whole linking pass over the comment–image pairs. -/
def linkAll (taxStore : List (String × TaxonomicName))
    (s : LinkState) (pairs : List (Comment × ImageUrl)) : LinkState :=
  pairs.foldl (linkStep taxStore) s

/-! ## GBIF response parsing (`query_gbif_taxonomy`, lines 39–73)

The raw GBIF answer is shape-heterogeneous JSON.  Scalar JSON values are
modelled by `PyVal`; a JSON object by an association list whose stored
values may themselves be `None` (`Option PyVal`), so that `dict.get`
returns `none` both for an absent key and for a stored null, exactly as
in Python.
-/

inductive PyVal where
  | int (n : Int)
  | str (s : String)
  | bool (b : Bool)
deriving DecidableEq, Repr

/-- A JSON object / Python dict with scalar (possibly null) values. -/
def PyDict : Type := List (String × Option PyVal)

/-- `d.get(k)`: `None` for an absent key or a stored null. -/
def dget (d : PyDict) (k : String) : Option PyVal :=
  match List.lookup k d with
  | some v => v
  | none => none

/-- Python truthiness of a scalar-or-null value. -/
def truthy : Option PyVal → Bool
  | none => false
  | some (.int n) => n ≠ 0
  | some (.str s) => s ≠ ""
  | some (.bool b) => b

/-- Python `a or b` on scalar-or-null values. -/
def pyOr (a b : Option PyVal) : Option PyVal :=
  if truthy a then a else b

/-- The parts of the `name_backbone` answer the parser reads: the
top-level legacy fields, and the optional new-format `usage` /
`diagnostics` objects and `classification` list. -/
structure GbifResponse where
  top : PyDict
  usage : Option PyDict := none
  diagnostics : Option PyDict := none
  classification : Option (List PyDict) := none

/-- `usage_data = name_match.get('usage', name_match)` followed by
`usage_data.get(k)`: the whole match object is the fallback. -/
def usageGet (m : GbifResponse) (k : String) : Option PyVal :=
  match m.usage with
  | some u => dget u k
  | none => dget m.top k

/-- `diagnostics = name_match.get('diagnostics', {})` followed by
`diagnostics.get(k)`. -/
def diagGet (m : GbifResponse) (k : String) : Option PyVal :=
  match m.diagnostics with
  | some d => dget d k
  | none => none

/-- The rank key of one classification entry:
`item.get('rank', '').lower()` (a non-string rank would raise in Python
and is mapped to the empty key here). -/
def classRankKey (item : PyDict) : String :=
  match dget item "rank" with
  | some (.str s) => String.mk (pyLower s.data)
  | _ => ""

/-- `classification_dict`: built left to right, later entries for the
same rank overwriting earlier ones (prepending plus first-match lookup
realizes the overwrite). -/
def classificationDict (m : GbifResponse) : PyDict :=
  (m.classification.getD []).foldl
    (fun acc item => (classRankKey item, dget item "name") :: acc) []

def classGet (m : GbifResponse) (k : String) : Option PyVal :=
  dget (classificationDict m) k

/-- The parsed `result` dict (lines 51–69) without the constant
`lookup_success` / `lookup_timestamp` entries, plus the derived
`is_insect` flag (lines 71–73). -/
structure GbifParsed where
  gbif_usage_key : Option PyVal
  gbif_accepted_key : Option PyVal
  gbif_taxonomic_status : Option PyVal
  gbif_match_type : Option PyVal
  gbif_confidence : Option PyVal
  scientific_name : Option PyVal
  canonical_name : Option PyVal
  kingdom : Option PyVal
  phylum : Option PyVal
  class_name : Option PyVal
  order : Option PyVal
  family : Option PyVal
  genus : Option PyVal
  species : Option PyVal
  rank : Option PyVal
  is_insect : Bool
deriving DecidableEq, Repr

/-- `class_value = result.get('class_name') or ''` then
`class_value == 'Insecta'`. -/
def isInsectOf (classField : Option PyVal) : Bool :=
  match pyOr classField (some (.str "")) with
  | some (.str s) => s = "Insecta"
  | _ => false

/-- The field-extraction of `query_gbif_taxonomy` (lines 51–73), one
`or`-chain per output field. -/
def parseGbifResponse (m : GbifResponse) : GbifParsed :=
  let class_name :=
    pyOr (classGet m "class") (pyOr (usageGet m "class") (dget m.top "class"))
  { gbif_usage_key := pyOr (usageGet m "key") (dget m.top "usageKey"),
    gbif_accepted_key := dget m.top "acceptedUsageKey",
    gbif_taxonomic_status := pyOr (usageGet m "status") (dget m.top "status"),
    gbif_match_type := pyOr (diagGet m "matchType") (dget m.top "matchType"),
    gbif_confidence := pyOr (diagGet m "confidence") (dget m.top "confidence"),
    scientific_name :=
      pyOr (usageGet m "name")
        (pyOr (usageGet m "scientificName") (dget m.top "scientificName")),
    canonical_name :=
      pyOr (usageGet m "canonicalName") (dget m.top "canonicalName"),
    kingdom :=
      pyOr (classGet m "kingdom")
        (pyOr (usageGet m "kingdom") (dget m.top "kingdom")),
    phylum :=
      pyOr (classGet m "phylum")
        (pyOr (usageGet m "phylum") (dget m.top "phylum")),
    class_name := class_name,
    order :=
      pyOr (classGet m "order")
        (pyOr (usageGet m "order") (dget m.top "order")),
    family :=
      pyOr (classGet m "family")
        (pyOr (usageGet m "family") (dget m.top "family")),
    genus :=
      pyOr (classGet m "genus")
        (pyOr (usageGet m "genus") (dget m.top "genus")),
    species :=
      pyOr (classGet m "species")
        (pyOr (usageGet m "species") (dget m.top "species")),
    rank := pyOr (usageGet m "rank") (dget m.top "rank"),
    is_insect := isInsectOf class_name }

/-- The spec's precedence policy, taken at its word: evaluate the
precedence chain left to right and return the first non-null value
(`null` if all are null). -/
def firstNonNull : List (Option PyVal) → Option PyVal
  | [] => none
  | x :: xs => if x.isSome then x else firstNonNull xs

/-- What the code actually computes per field: first *truthy* value in
the chain, else the last value of the chain (Python `a or b or c`). -/
def firstTruthyElseLast : List (Option PyVal) → Option PyVal
  | [] => none
  | [x] => x
  | x :: xs => if truthy x then x else firstTruthyElseLast xs

end EntoMLgist

namespace EntoMLgist

/-! ## Concrete fixtures

Small concrete rows/oracles used to evaluate the pipeline functions at
specific inputs (the spec's worked examples and the witnesses of the
general theorems).
-/

/-- A resolved taxonomy row for "cockroach" with match confidence 90. -/
def sampleTax : TaxonomicName :=
  { common_name := "cockroach", gbif_confidence := some 90,
    scientific_name := some "Blattodea", lookup_success := true,
    is_insect := some true }

/-- A comment whose extracted name is "cockroach" with extraction
confidence 0.9. -/
def sampleComment : Comment :=
  { comment_id := "c1", parent_post_id := "p1",
    body := "there is a roach on my wall", upvotes := 3,
    extracted_name := some "cockroach",
    extracted_name_confidence := some 0.9 }

/-- An image belonging to the same post as `sampleComment`. -/
def sampleImage : ImageUrl :=
  { image_id := "img1", parent_post_id := "p1", url := "https://e/1.jpg" }

/-- A pre-existing link row for (`img1`, `cockroach`), created from an
older comment `c0` with different confidences. -/
def sampleLink : ImageTaxonomyLink :=
  { image_id := "img1", common_name := "cockroach", comment_id := "c0",
    extraction_confidence := some 0.5, gbif_confidence := some 80,
    label_quality_score := some 0.4, comment_upvotes := 7,
    is_top_identification := true }

/-- A link table holding just `sampleLink`. -/
def sampleLinkState : LinkState :=
  { links := [(("img1", "cockroach"), sampleLink)] }

/-- A comment naming "mothman", for which no taxonomy row exists. -/
def sampleComment2 : Comment :=
  { comment_id := "c9", parent_post_id := "p1", body := "mothman!",
    upvotes := 0, extracted_name := some "mothman",
    extracted_name_confidence := none }

/-- An oracle whose every lookup raises (transport error). -/
def sampleFailOracle : String → QueryResult :=
  fun _ => .failure "HTTP 500" 42

/-- A fresh GBIF answer for the re-check scenario: confidence 95,
differing from the stored 90. -/
def c2Data : GbifData :=
  { gbif_confidence := some 95, scientific_name := some "Blattodea",
    rank := some "ORDER", is_insect := true, lookup_timestamp := 1111 }

/-- An oracle returning `c2Data` for every name. -/
def c2Oracle : String → QueryResult := fun _ => .success c2Data

/-- A GBIF response whose `diagnostics.confidence` is the non-null but
falsy value `0` while the legacy top-level `confidence` is `50`. -/
def c5Response : GbifResponse :=
  { top := [("confidence", some (.int 50))],
    diagnostics := some [("confidence", some (.int 0))] }

/-! ## Helper lemmas -/

theorem lookup_upsertAL {κ α : Type} [BEq κ] [LawfulBEq κ] [DecidableEq κ]
    (st : List (κ × α)) (k : κ) (v : α) :
    List.lookup k (upsertAL st k v) = some v := by
  induction st with
  | nil => simp [upsertAL, List.lookup]
  | cons hd tl ih =>
      obtain ⟨k', v'⟩ := hd
      by_cases h : k' = k
      · simp [upsertAL, h, List.lookup]
      · simp only [upsertAL, if_neg h, List.lookup]
        have hkk : (k == k') = false :=
          beq_eq_false_iff_ne.mpr fun hc => h hc.symm
        rw [hkk]
        exact ih

/-- The field-by-field update of lines 352–363 always leaves the three
confidence fields equal to the freshly computed values (a field is
rewritten exactly when it differs). -/
theorem updateExistingLink_eq (L : ImageTaxonomyLink) (e g q : Option ℚ) :
    (updateExistingLink L e g q).1 =
      { L with extraction_confidence := e, gbif_confidence := g,
               label_quality_score := q } := by
  obtain ⟨i, n, c, e0, g0, q0, u, t⟩ := L
  unfold updateExistingLink
  dsimp only
  split_ifs <;> simp_all

end EntoMLgist

namespace EntoMLgist

/-! ## Claim theorems -/

/-- C1: for every link created or updated by the linker, the stored
`label_quality_score` equals the fusion of the link's stored extraction
confidence `e` and stored match confidence `g`: `e * (g/100)` if both
are present, `e` if only `e` is present, `g/100` if only `g` is present,
and null if neither; in particular e=0.8, g=75 gives 0.6, e=0.5, g=null
gives 0.5, e=null, g=40 gives 0.4, and e=null, g=null gives null. -/
theorem claim_C1_quality_is_fusion (taxStore : List (String × TaxonomicName))
    (s : LinkState) (comment : Comment) (image : ImageUrl) (cname : String)
    (taxonomy : TaxonomicName)
    (hname : comment.extracted_name = some cname)
    (htax : List.lookup cname taxStore = some taxonomy) :
    (∃ L, List.lookup (image.image_id, cname)
            (linkStep taxStore s (comment, image)).links = some L ∧
          L.label_quality_score =
            fuseQuality L.extraction_confidence L.gbif_confidence) ∧
    fuseQuality (some 0.8) (some 75) = some 0.6 ∧
    fuseQuality (some 0.5) none = some 0.5 ∧
    fuseQuality none (some 40) = some 0.4 ∧
    fuseQuality none none = none := by
  refine ⟨?_, by norm_num [fuseQuality], rfl, by norm_num [fuseQuality], rfl⟩
  unfold linkStep
  simp only [hname, htax]
  cases hlink : List.lookup (image.image_id, cname) s.links with
  | none =>
      dsimp only
      exact ⟨_, lookup_upsertAL .., rfl⟩
  | some ex =>
      dsimp only
      refine ⟨_, lookup_upsertAL .., ?_⟩
      rw [updateExistingLink_eq]

/-- C1, witness: the invariant and the four concrete fusion values,
instantiated with the "cockroach" fixtures. -/
theorem claim_C1_quality_is_fusion_witness :
    (∃ L, List.lookup ("img1", "cockroach")
            (linkStep [("cockroach", sampleTax)] { links := [] }
              (sampleComment, sampleImage)).links = some L ∧
          L.label_quality_score =
            fuseQuality L.extraction_confidence L.gbif_confidence) ∧
    fuseQuality (some 0.8) (some 75) = some 0.6 ∧
    fuseQuality (some 0.5) none = some 0.5 ∧
    fuseQuality none (some 40) = some 0.4 ∧
    fuseQuality none none = none :=
  claim_C1_quality_is_fusion [("cockroach", sampleTax)] { links := [] }
    sampleComment sampleImage "cockroach" sampleTax (by rfl) (by rfl)

/-- C2: the claim says a stored record with `lookup_success == true` is
skipped (not re-queried) unless force-recheck is requested; in the code
the skip (lines 164–168) is commented out ("temporary bypass to recheck
all names") and no force-recheck mode exists, so a successful record IS
re-queried: starting from a store whose "cockroach" row has
`lookup_success = true` and confidence 90, one resolver pass overwrites
the row with the oracle's fresh answer (confidence 95, new
timestamp). -/
theorem claim_C2_success_record_requeried :
    sampleTax.lookup_success = true ∧
    List.lookup "cockroach"
        (enrichAll c2Oracle 0 [("cockroach", sampleTax)] ["cockroach"]) =
      some (applyGbifData sampleTax c2Data) ∧
    (applyGbifData sampleTax c2Data).gbif_confidence = some 95 ∧
    (applyGbifData sampleTax c2Data).lookup_timestamp = some 1111 := by
  refine ⟨rfl, ?_, by decide, by decide⟩
  rfl

/-- C3: the claim says every canonical output of `normalize` is a fixed
point; it is not: "daddy long legss" is a canonical output (of raw
"daddy long legs", via the substring phrase replacement
`daddy long leg → daddy long legs`), yet normalizing it yields the
distinct string "daddy long legsss". -/
theorem claim_C3_canonical_not_fixed_point :
    normalize_insect_name "daddy long legs" = some "daddy long legss" ∧
    normalize_insect_name "daddy long legss" = some "daddy long legsss" ∧
    ("daddy long legsss" : String) ≠ "daddy long legss" :=
  ⟨by rfl, by rfl, by decide⟩

/-- C4: of the three concrete synonym examples, "lady beetles" and
"Book Lice" behave as claimed, but `normalize("roaches")` returns
"roach", not "cockroach": the word-synonym pass (which knows
`roach → cockroach`) runs before singularization, so the singular
"roach" produced from "roaches" is never looked up, contradicting the
source's own comment on the `ches$` pattern. -/
theorem claim_C4_synonym_examples :
    normalize_insect_name "roaches" = some "roach" ∧
    normalize_insect_name "roaches" ≠ some "cockroach" ∧
    normalize_insect_name "lady beetles" = some "ladybug" ∧
    normalize_insect_name "Book Lice" = some "booklouse" :=
  ⟨by rfl, by decide, by rfl, by rfl⟩

/-- C5, counterexample: the claim says the first NON-NULL value in the
precedence chain wins; but the parser uses Python `or`, so the non-null
falsy value `0` stored under `diagnostics.confidence` is passed over in
favour of the later top-level value `50`. -/
theorem claim_C5_counterexample :
    (parseGbifResponse c5Response).gbif_confidence = some (.int 50) ∧
    firstNonNull
        [diagGet c5Response "confidence", dget c5Response.top "confidence"] =
      some (.int 0) ∧
    (some (PyVal.int 50) : Option PyVal) ≠ some (PyVal.int 0) :=
  ⟨by rfl, by rfl, by decide⟩

/-- C5, amended: each output field is chosen by the fixed precedence
(structured classification entry, else flattened `usage` field, else
top-level legacy field), and within that order the first TRUTHY value
wins (null, `0`, and `""` are passed over); when no value in the chain
is truthy, the last value of the chain is stored. -/
theorem claim_C5_first_truthy_precedence (m : GbifResponse) :
    (parseGbifResponse m).gbif_usage_key =
      firstTruthyElseLast [usageGet m "key", dget m.top "usageKey"] ∧
    (parseGbifResponse m).gbif_accepted_key =
      firstTruthyElseLast [dget m.top "acceptedUsageKey"] ∧
    (parseGbifResponse m).gbif_taxonomic_status =
      firstTruthyElseLast [usageGet m "status", dget m.top "status"] ∧
    (parseGbifResponse m).gbif_match_type =
      firstTruthyElseLast [diagGet m "matchType", dget m.top "matchType"] ∧
    (parseGbifResponse m).gbif_confidence =
      firstTruthyElseLast [diagGet m "confidence", dget m.top "confidence"] ∧
    (parseGbifResponse m).scientific_name =
      firstTruthyElseLast
        [usageGet m "name", usageGet m "scientificName",
         dget m.top "scientificName"] ∧
    (parseGbifResponse m).canonical_name =
      firstTruthyElseLast
        [usageGet m "canonicalName", dget m.top "canonicalName"] ∧
    (parseGbifResponse m).kingdom =
      firstTruthyElseLast
        [classGet m "kingdom", usageGet m "kingdom", dget m.top "kingdom"] ∧
    (parseGbifResponse m).phylum =
      firstTruthyElseLast
        [classGet m "phylum", usageGet m "phylum", dget m.top "phylum"] ∧
    (parseGbifResponse m).class_name =
      firstTruthyElseLast
        [classGet m "class", usageGet m "class", dget m.top "class"] ∧
    (parseGbifResponse m).order =
      firstTruthyElseLast
        [classGet m "order", usageGet m "order", dget m.top "order"] ∧
    (parseGbifResponse m).family =
      firstTruthyElseLast
        [classGet m "family", usageGet m "family", dget m.top "family"] ∧
    (parseGbifResponse m).genus =
      firstTruthyElseLast
        [classGet m "genus", usageGet m "genus", dget m.top "genus"] ∧
    (parseGbifResponse m).species =
      firstTruthyElseLast
        [classGet m "species", usageGet m "species", dget m.top "species"] ∧
    (parseGbifResponse m).rank =
      firstTruthyElseLast [usageGet m "rank", dget m.top "rank"] :=
  ⟨rfl, rfl, rfl, rfl, rfl, rfl, rfl, rfl, rfl, rfl, rfl, rfl, rfl, rfl, rfl⟩

end EntoMLgist

namespace EntoMLgist

/-- C6: for every raw input string, normalize never returns a string of
length at most 2 and never returns a denylisted string; any such result
is reported as invalid (`none`) instead. -/
theorem claim_C6_never_short_or_denylisted (s x : String)
    (h : normalize_insect_name s = some x) :
    2 < x.length ∧ x ∉ INVALID_NAMES := by
  unfold normalize_insect_name at h
  split at h
  · exact Option.noConfusion h
  · dsimp only at h
    split at h
    · exact Option.noConfusion h
    · split at h
      · exact Option.noConfusion h
      · rename_i hcond
        obtain rfl := (Option.some.injEq _ _ ▸ h : _ = x)
        push_neg at hcond
        exact ⟨hcond.1, hcond.2⟩

/-- C6, witness: the guarantee evaluated at raw input "roaches", whose
canonical output "roach" has length 5 and is not denylisted. -/
theorem claim_C6_never_short_or_denylisted_witness :
    2 < ("roach" : String).length ∧ ("roach" : String) ∉ INVALID_NAMES :=
  claim_C6_never_short_or_denylisted "roaches" "roach" (by rfl)

/-- C7: when the authority lookup for a name fails (transport or parse
error), the resolver persists a record for that name with
`lookup_success = false` and `lookup_error` set to the cause, and the
batch fold continues with the remaining names (no exception escapes:
the step is a total function and the fold proceeds on the tail). -/
theorem claim_C7_failure_persisted_nonfatal (oracle : String → QueryResult)
    (now ts : Int) (store : List (String × TaxonomicName))
    (name err : String) (rest : List String)
    (h : oracle name = .failure err ts) :
    (∃ t, List.lookup name (enrichStep oracle now store name) = some t ∧
          t.lookup_success = false ∧ t.lookup_error = some err) ∧
    enrichAll oracle now store (name :: rest) =
      enrichAll oracle now (enrichStep oracle now store name) rest := by
  constructor
  · unfold enrichStep
    simp only [h]
    cases hex : List.lookup name store with
    | none => exact ⟨_, lookup_upsertAL .., rfl, rfl⟩
    | some ex =>
        dsimp only
        exact ⟨_, lookup_upsertAL .., rfl, rfl⟩
  · rfl

/-- C7, witness: an always-failing oracle on the single name "ladybug"
leaves a row with `lookup_success = false` and the error string. -/
theorem claim_C7_failure_persisted_nonfatal_witness :
    (∃ t, List.lookup "ladybug"
            (enrichStep sampleFailOracle 0 [] "ladybug") = some t ∧
          t.lookup_success = false ∧ t.lookup_error = some "HTTP 500") ∧
    enrichAll sampleFailOracle 0 [] ["ladybug"] =
      enrichAll sampleFailOracle 0
        (enrichStep sampleFailOracle 0 [] "ladybug") [] :=
  claim_C7_failure_persisted_nonfatal sampleFailOracle 0 42 [] "ladybug"
    "HTTP 500" [] (by rfl)

/-- C8: a mention whose canonical name has no stored taxonomy row
produces no link: the state change is exactly "skipped counter + 1 and
a warning carrying the name and the source comment id" (links
untouched), and the fold continues with the remaining pairs. -/
theorem claim_C8_missing_taxonomy_skipped
    (taxStore : List (String × TaxonomicName)) (s : LinkState)
    (comment : Comment) (image : ImageUrl) (cname : String)
    (rest : List (Comment × ImageUrl))
    (hname : comment.extracted_name = some cname)
    (htax : List.lookup cname taxStore = none) :
    linkStep taxStore s (comment, image) =
      { s with
          skippedLinks := s.skippedLinks + 1,
          warnings := s.warnings ++ [(cname, comment.comment_id)] } ∧
    linkAll taxStore s ((comment, image) :: rest) =
      linkAll taxStore (linkStep taxStore s (comment, image)) rest := by
  constructor
  · unfold linkStep
    simp only [hname, htax]
  · rfl

/-- C8, witness: the "mothman" mention against an empty taxonomy store
is counted as skipped, logged, and creates no link. -/
theorem claim_C8_missing_taxonomy_skipped_witness :
    linkStep [] sampleLinkState (sampleComment2, sampleImage) =
      { sampleLinkState with
          skippedLinks := sampleLinkState.skippedLinks + 1,
          warnings := sampleLinkState.warnings ++
            [("mothman", sampleComment2.comment_id)] } ∧
    linkAll [] sampleLinkState [(sampleComment2, sampleImage)] =
      linkAll []
        (linkStep [] sampleLinkState (sampleComment2, sampleImage)) [] :=
  claim_C8_missing_taxonomy_skipped [] sampleLinkState sampleComment2
    sampleImage "mothman" [] (by rfl) (by rfl)

/-- C9: when the linker updates an existing link, the stored row becomes
exactly the old row with the three fields `extraction_confidence`,
`gbif_confidence` and `label_quality_score` recomputed; `comment_id`,
`comment_upvotes`, `is_top_identification` and the key fields are left
unchanged even though the current source comment is arbitrary (and may
differ from the one recorded at creation). -/
theorem claim_C9_update_frame (taxStore : List (String × TaxonomicName))
    (s : LinkState) (comment : Comment) (image : ImageUrl) (cname : String)
    (taxonomy : TaxonomicName) (L : ImageTaxonomyLink)
    (hname : comment.extracted_name = some cname)
    (htax : List.lookup cname taxStore = some taxonomy)
    (hlink : List.lookup (image.image_id, cname) s.links = some L) :
    ∃ L2, List.lookup (image.image_id, cname)
            (linkStep taxStore s (comment, image)).links = some L2 ∧
      L2 = { L with
              extraction_confidence := comment.extracted_name_confidence,
              gbif_confidence := taxonomy.gbif_confidence,
              label_quality_score :=
                fuseQuality comment.extracted_name_confidence
                  taxonomy.gbif_confidence } ∧
      L2.comment_id = L.comment_id ∧
      L2.comment_upvotes = L.comment_upvotes ∧
      L2.is_top_identification = L.is_top_identification ∧
      L2.image_id = L.image_id ∧
      L2.common_name = L.common_name := by
  unfold linkStep
  simp only [hname, htax, hlink]
  refine ⟨_, lookup_upsertAL .., updateExistingLink_eq .., ?_, ?_, ?_, ?_, ?_⟩ <;>
    rw [updateExistingLink_eq]

/-- C9, witness: re-linking (`img1`, `cockroach`) from the newer comment
`c1` updates only the three confidence fields of the stored link created
from comment `c0`. -/
theorem claim_C9_update_frame_witness :
    ∃ L2, List.lookup ("img1", "cockroach")
            (linkStep [("cockroach", sampleTax)] sampleLinkState
              (sampleComment, sampleImage)).links = some L2 ∧
      L2 = { sampleLink with
              extraction_confidence := sampleComment.extracted_name_confidence,
              gbif_confidence := sampleTax.gbif_confidence,
              label_quality_score :=
                fuseQuality sampleComment.extracted_name_confidence
                  sampleTax.gbif_confidence } ∧
      L2.comment_id = sampleLink.comment_id ∧
      L2.comment_upvotes = sampleLink.comment_upvotes ∧
      L2.is_top_identification = sampleLink.is_top_identification ∧
      L2.image_id = sampleLink.image_id ∧
      L2.common_name = sampleLink.common_name :=
  claim_C9_update_frame [("cockroach", sampleTax)] sampleLinkState
    sampleComment sampleImage "cockroach" sampleTax sampleLink
    (by rfl) (by rfl) (by rfl)

/-- C10: in the word-synonym pass, punctuation is stripped only for the
lookup: a word whose cleaned form is not a synonym key is emitted
verbatim (punctuation intact), a word whose cleaned form is a key is
replaced by the synonym (punctuation discarded); consequently a
canonical output of normalize can carry trailing punctuation, e.g.
normalize("ants...") = "ants...". -/
theorem claim_C10_punctuation_lookup_only :
    (∀ w : List Char,
        List.lookup (String.mk (stripChars isWordPunct w)) WORD_SYNONYMS =
          none →
        replaceWordSynonymsWord w = w) ∧
    (∀ (w : List Char) (v : String),
        List.lookup (String.mk (stripChars isWordPunct w)) WORD_SYNONYMS =
          some v →
        replaceWordSynonymsWord w = v.data) ∧
    String.mk (replace_word_synonyms ("roach.".data)) = "cockroach" ∧
    String.mk (replace_word_synonyms ("ants...".data)) = "ants..." ∧
    normalize_insect_name "ants..." = some "ants..." := by
  refine ⟨?_, ?_, by rfl, by rfl, by rfl⟩
  · intro w h
    simp [replaceWordSynonymsWord, h]
  · intro w v h
    simp [replaceWordSynonymsWord, h]

/-- C10, witness: the two universal parts evaluated at the punctuated
non-key word "ants..." and the punctuated key word "roach.". -/
theorem claim_C10_punctuation_lookup_only_witness :
    replaceWordSynonymsWord ("ants...".data) = "ants...".data ∧
    replaceWordSynonymsWord ("roach.".data) = "cockroach".data :=
  ⟨claim_C10_punctuation_lookup_only.1 ("ants...".data) (by rfl),
   claim_C10_punctuation_lookup_only.2.1 ("roach.".data) "cockroach" (by rfl)⟩

end EntoMLgist
